import Mathlib

/-!
Shallow embedding of the markdown-preview repository's core pipeline:
the markdown renderer (`parseMarkdown` with its DOMPurify configuration),
the debounced parser, the throttled autosave hook, the remote document
client with primary/fallback endpoints, the sync orchestrator hook, and
the localStorage persistence hook.
-/

namespace MdPreview

/-! ## HTML document model and the sanitizer configuration

`purifyConfig` in the source configures DOMPurify with an allow-list of
tags and attributes, `ALLOW_DATA_ATTR: false` and `KEEP_CONTENT: true`.
DOMPurify itself is a third-party dependency whose code is not in the
repository; its filtering behaviour under this configuration is modelled
here on a DOM tree type.
-/

/-- A DOM node: text or an element with a tag, attributes and children. -/
inductive Html where
  | text (s : String)
  | elem (tag : String) (attrs : List (String × String)) (children : List Html)

/-- `ALLOWED_TAGS` from `purifyConfig` in the source. -/
def allowedTags : List String :=
  ["h1", "h2", "h3", "h4", "h5", "h6",
   "p", "br", "strong", "em", "u", "del", "s",
   "a", "img",
   "ul", "ol", "li",
   "blockquote", "pre", "code",
   "table", "thead", "tbody", "tr", "th", "td",
   "hr",
   "div", "span"]

/-- `ALLOWED_ATTR` from `purifyConfig` in the source. -/
def allowedAttrs : List String :=
  ["href", "title", "alt", "src",
   "id", "class",
   "target", "rel"]

mutual

/-- Modelled from the spec: `DOMPurify.sanitize` under `purifyConfig`
(the DOMPurify library is not part of the repository). An element with an
allow-listed tag is kept with only allow-listed attributes; a disallowed
element is replaced by its sanitized children (`KEEP_CONTENT: true`:
content is re-parented, not deleted); `data-*` attributes are never in
the attribute allow-list (`ALLOW_DATA_ATTR: false`). -/
def sanitizeNode : Html → List Html
  | .text s => [.text s]
  | .elem t attrs cs =>
      if t ∈ allowedTags then
        [.elem t (attrs.filter (fun a => decide (a.1 ∈ allowedAttrs))) (sanitizeList cs)]
      else
        sanitizeList cs

/-- Sanitize a forest of DOM nodes, concatenating the results. -/
def sanitizeList : List Html → List Html
  | [] => []
  | c :: cs => sanitizeNode c ++ sanitizeList cs

end

/-- `strStartsWith n p`: the name `n` begins with the characters of `p`
(a kernel-computable version of `String.startsWith`). -/
def strStartsWith (n p : String) : Bool :=
  p.toList.isPrefixOf n.toList

/-- An attribute name is safe: allow-listed, hence neither an event
handler (`on...`) nor a `data-*` attribute. -/
def safeAttrName (n : String) : Bool :=
  allowedAttrs.contains n && !(strStartsWith n "on") && !(strStartsWith n "data-")

mutual

/-- Every element of the tree carries an allow-listed tag (in particular
not `script`) and only safe attribute names. -/
def sanitizedOkNode : Html → Bool
  | .text _ => true
  | .elem t attrs cs =>
      allowedTags.contains t && (t != "script") &&
      attrs.all (fun a => safeAttrName a.1) && sanitizedOkList cs

/-- `sanitizedOkNode` over a forest. -/
def sanitizedOkList : List Html → Bool
  | [] => true
  | c :: cs => sanitizedOkNode c && sanitizedOkList cs

end

mutual

/-- The concatenated text content of a DOM node. -/
def textContentNode : Html → String
  | .text s => s
  | .elem _ _ cs => textContentList cs

/-- Text content of a forest. -/
def textContentList : List Html → String
  | [] => ""
  | c :: cs => textContentNode c ++ textContentList cs

end

mutual

/-- Serialize a DOM node back to an HTML string. -/
def renderNode : Html → String
  | .text s => s
  | .elem t attrs cs =>
      "<" ++ t ++ String.join (attrs.map (fun a => " " ++ a.1 ++ "=" ++ a.2)) ++ ">"
        ++ renderList cs ++ "</" ++ t ++ ">"

/-- Serialize a forest of DOM nodes. -/
def renderList : List Html → String
  | [] => ""
  | c :: cs => renderNode c ++ renderList cs

end

/-! ## `parseMarkdown` -/

/-- The input of `parseMarkdown`: a string, or a non-string value (the
source guards with `typeof markdown !== 'string'`). -/
inductive MdInput where
  | str (s : String)
  | nonString
deriving Repr, DecidableEq

/-- The fixed fallback fragment returned when parsing throws. -/
def errorFallback : String := "<p>Error parsing markdown content.</p>"

/-- `parseMarkdown` from the source. The `marked` parser is a third-party
dependency, modelled as an arbitrary function `parse` producing either a
DOM forest (the parsed raw HTML) or an error (a thrown exception). Falsy
or non-string input returns the empty string; a parse exception is caught
and replaced by `errorFallback`; otherwise the raw HTML is sanitized. -/
def parseMarkdown (parse : String → Except String (List Html)) : MdInput → String
  | .nonString => ""
  | .str s =>
      if s = "" then ""
      else
        match parse s with
        | .ok doc => renderList (sanitizeList doc)
        | .error _ => errorFallback

/-! ## Sanitizer lemmas -/

theorem safeAttrName_of_mem (n : String) (h : n ∈ allowedAttrs) :
    safeAttrName n = true := by
  fin_cases h <;> decide

theorem tag_contains_of_mem (t : String) (h : t ∈ allowedTags) :
    allowedTags.contains t = true := by
  fin_cases h <;> decide

theorem tag_ne_script_of_mem (t : String) (h : t ∈ allowedTags) :
    (t != "script") = true := by
  fin_cases h <;> decide

theorem sanitizedOkList_append (l₁ l₂ : List Html) :
    sanitizedOkList (l₁ ++ l₂) = (sanitizedOkList l₁ && sanitizedOkList l₂) := by
  induction l₁ with
  | nil => simp [sanitizedOkList]
  | cons c cs ih => simp [sanitizedOkList, ih, Bool.and_assoc]

mutual

theorem sanitizedOk_node (h : Html) : sanitizedOkList (sanitizeNode h) = true := by
  cases h with
  | text s => simp [sanitizeNode, sanitizedOkList, sanitizedOkNode]
  | elem t attrs cs =>
      by_cases ht : t ∈ allowedTags
      · have hcs := sanitizedOk_list cs
        have hattrs : (attrs.filter (fun a => decide (a.1 ∈ allowedAttrs))).all
            (fun a => safeAttrName a.1) = true := by
          rw [List.all_eq_true]
          intro a ha
          exact safeAttrName_of_mem a.1 (of_decide_eq_true (List.mem_filter.mp ha).2)
        rw [sanitizeNode, if_pos ht]
        simp only [sanitizedOkList, sanitizedOkNode, hattrs, hcs,
          tag_contains_of_mem t ht, tag_ne_script_of_mem t ht, Bool.and_self,
          Bool.true_and, Bool.and_true]
      · rw [sanitizeNode, if_neg ht]
        exact sanitizedOk_list cs

theorem sanitizedOk_list (l : List Html) : sanitizedOkList (sanitizeList l) = true := by
  cases l with
  | nil => rfl
  | cons c cs =>
      rw [sanitizeList, sanitizedOkList_append, sanitizedOk_node c, sanitizedOk_list cs]
      rfl

end

theorem textContentList_append (l₁ l₂ : List Html) :
    textContentList (l₁ ++ l₂) = textContentList l₁ ++ textContentList l₂ := by
  induction l₁ with
  | nil => simp [textContentList]
  | cons c cs ih => simp [textContentList, ih, String.append_assoc]

mutual

theorem textContent_sanitizeNode (h : Html) :
    textContentList (sanitizeNode h) = textContentNode h := by
  cases h with
  | text s => simp [sanitizeNode, textContentList, textContentNode]
  | elem t attrs cs =>
      by_cases ht : t ∈ allowedTags
      · simp only [sanitizeNode, if_pos ht, textContentList, textContentNode]
        rw [textContent_sanitizeList cs]
        simp
      · simp only [sanitizeNode, if_neg ht, textContentNode]
        exact textContent_sanitizeList cs

theorem textContent_sanitizeList (l : List Html) :
    textContentList (sanitizeList l) = textContentList l := by
  cases l with
  | nil => rfl
  | cons c cs =>
      rw [sanitizeList, textContentList_append, textContent_sanitizeNode c,
        textContent_sanitizeList cs, textContentList]

end

/-! ## C1 and C2: the renderer -/

/-- C1: for every markdown input (whatever raw HTML the `marked` parser
produces for it, including `script` elements, `onerror` handlers and
`data-*` attributes), the output of `parseMarkdown` is the serialization
of the sanitized DOM; every node of that DOM carries an allow-listed tag
and only allow-listed attribute names — so no `script` tag, no
event-handler attribute and no `data-*` attribute can appear — while the
text content of disallowed tags is kept rather than deleted. -/
theorem parseMarkdown_xss_safe (parse : String → Except String (List Html))
    (s : String) (doc : List Html) (hs : s ≠ "") (hp : parse s = Except.ok doc) :
    parseMarkdown parse (.str s) = renderList (sanitizeList doc) ∧
    sanitizedOkList (sanitizeList doc) = true ∧
    textContentList (sanitizeList doc) = textContentList doc ∧
    (∀ n : String, safeAttrName n = true →
      n ∈ allowedAttrs ∧ strStartsWith n "on" = false ∧ strStartsWith n "data-" = false) ∧
    (∀ t : String, allowedTags.contains t = true → t ∈ allowedTags ∧ t ≠ "script") := by
  refine ⟨by simp [parseMarkdown, hs, hp], sanitizedOk_list doc,
    textContent_sanitizeList doc, ?_, ?_⟩
  · intro n h
    simp only [safeAttrName, Bool.and_eq_true, Bool.not_eq_true'] at h
    exact ⟨List.elem_iff.mp h.1.1, h.1.2, h.2⟩
  · intro t ht
    have hmem := List.elem_iff.mp ht
    exact ⟨hmem, bne_iff_ne.mp (tag_ne_script_of_mem t hmem)⟩

/-- A raw parse result carrying a script element, an `onerror` handler and
a `data-*` attribute, used to instantiate the sanitizer theorems. -/
def nastyDoc : List Html :=
  [Html.elem "script" [] [Html.text "alert(1)"],
   Html.elem "img" [("src", "x.png"), ("onerror", "alert(1)"), ("data-evil", "1")] [],
   Html.elem "p" [] [Html.text "hello"]]

/-- Witness for C1 at a concrete malicious document. -/
theorem parseMarkdown_xss_safe_witness :
    parseMarkdown (fun _ => Except.ok nastyDoc) (.str "bad input") =
      renderList (sanitizeList nastyDoc) ∧
    sanitizedOkList (sanitizeList nastyDoc) = true ∧
    textContentList (sanitizeList nastyDoc) = textContentList nastyDoc ∧
    (∀ n : String, safeAttrName n = true →
      n ∈ allowedAttrs ∧ strStartsWith n "on" = false ∧ strStartsWith n "data-" = false) ∧
    (∀ t : String, allowedTags.contains t = true → t ∈ allowedTags ∧ t ≠ "script") :=
  parseMarkdown_xss_safe (fun _ => Except.ok nastyDoc) "bad input" nastyDoc
    (by decide) rfl

/-- C2: `parseMarkdown` is total by construction; it returns the empty
string on the empty string and on non-string input, and returns the fixed
fallback fragment whenever the underlying parse raises an exception (the
parser is only ever invoked on non-empty strings). -/
theorem parseMarkdown_never_throws (parse : String → Except String (List Html)) :
    parseMarkdown parse (.str "") = "" ∧
    parseMarkdown parse .nonString = "" ∧
    (∀ s e, s ≠ "" → parse s = Except.error e →
      parseMarkdown parse (.str s) = errorFallback) := by
  refine ⟨by simp [parseMarkdown], rfl, ?_⟩
  intro s e hs hp
  simp [parseMarkdown, hs, hp]

/-- Witness for C2 at a concrete always-throwing parser. -/
theorem parseMarkdown_never_throws_witness :
    parseMarkdown (fun _ => Except.error "boom") (.str "") = "" ∧
    parseMarkdown (fun _ => Except.error "boom") MdInput.nonString = "" ∧
    parseMarkdown (fun _ => Except.error "boom") (.str "# hi") = errorFallback := by
  have h := parseMarkdown_never_throws (fun _ => Except.error "boom")
  exact ⟨h.1, h.2.1, h.2.2 "# hi" "boom" (by decide) rfl⟩

/-! ## C3: `createDebouncedParser`

The returned submit function clears the pending timeout and schedules a
new render `D` milliseconds later. Modelled as a trace semantics over a
list of timestamped submit calls: the scheduler state is the pending
timer (its fire time and the captured markdown). A pending timer whose
fire time has been reached before the next call fires and delivers its
render to the sink; after the final call the remaining pending timer
fires in the quiet window. The output is the list of sink deliveries. -/

/-- Process the submit calls in order, starting from a pending timer. -/
def debounceSteps (D : Nat) (parse : String → Except String (List Html)) :
    Option (Nat × String) → List (Nat × String) → List String
  | pending, [] =>
      match pending with
      | some p => [parseMarkdown parse (.str p.2)]
      | none => []
  | pending, c :: rest =>
      match pending with
      | some p =>
          if p.1 ≤ c.1 then
            parseMarkdown parse (.str p.2) :: debounceSteps D parse (some (c.1 + D, c.2)) rest
          else
            debounceSteps D parse (some (c.1 + D, c.2)) rest
      | none => debounceSteps D parse (some (c.1 + D, c.2)) rest

/-- A full run of the debounced parser: no timer pending initially. -/
def runDebounced (D : Nat) (parse : String → Except String (List Html))
    (calls : List (Nat × String)) : List String :=
  debounceSteps D parse none calls

/-- Consecutive submit calls in real time, each strictly less than `D`
milliseconds after the previous one. -/
def rapidCalls (D : Nat) (calls : List (Nat × String)) : Prop :=
  List.Chain' (fun a b => a.1 ≤ b.1 ∧ b.1 < a.1 + D) calls

theorem debounceSteps_last (D : Nat) (parse : String → Except String (List Html))
    (t : Nat) (s : String) (rest : List (Nat × String))
    (h : rapidCalls D ((t, s) :: rest)) :
    debounceSteps D parse (some (t + D, s)) rest =
      [parseMarkdown parse (.str (((t, s) :: rest).getLast (by simp)).2)] := by
  induction rest generalizing t s with
  | nil => simp [debounceSteps]
  | cons c rest ih =>
      have hc := List.chain'_cons.mp h
      have hlt : c.1 < t + D := hc.1.2
      rw [debounceSteps, if_neg (by omega)]
      have := ih c.1 c.2 hc.2
      rw [List.getLast_cons (List.cons_ne_nil c rest)]
      exact this

/-- C3: for every non-empty sequence of submit calls, each arriving
within less than `D` ms of the previous one, exactly one render reaches
the sink and it is the render of the markdown passed to the last call;
all earlier pending renders are cancelled and never delivered. -/
theorem debounced_delivers_last_only (D : Nat)
    (parse : String → Except String (List Html)) (calls : List (Nat × String))
    (hne : calls ≠ []) (hgap : rapidCalls D calls) :
    runDebounced D parse calls = [parseMarkdown parse (.str (calls.getLast hne).2)] := by
  cases calls with
  | nil => exact absurd rfl hne
  | cons c rest =>
      rw [runDebounced, debounceSteps]
      exact debounceSteps_last D parse c.1 c.2 rest hgap

/-- The identity-like parser used to instantiate the debounce theorem. -/
def echoParse : String → Except String (List Html) :=
  fun s => Except.ok [Html.text s]

/-- Witness for C3 at three rapid calls: only the last value is rendered. -/
theorem debounced_delivers_last_only_witness :
    runDebounced 10 echoParse [(0, "a"), (4, "ab"), (9, "abc")] =
      [parseMarkdown echoParse
        (.str (([(0, "a"), (4, "ab"), (9, "abc")] : List (Nat × String)).getLast
          (by decide)).2)] :=
  debounced_delivers_last_only 10 echoParse [(0, "a"), (4, "ab"), (9, "abc")]
    (by decide) (by constructor <;> simp [List.chain'_cons, rapidCalls])

/-! ## C4 and C5: `useThrottledAutosave`

The hook's observable state: the currently tracked value, the last-saved
value (`lastSavedRef`), the pending timer together with the value its
callback closed over (`timeoutRef` plus the `value` captured by
`throttledSave`), and the `enabled` flag. The first render records the
initial value as already saved and arms nothing. A later value change
runs the effect: the previous timer is cleared and, when enabled, a new
timer capturing the new value is armed. When a timer fires it saves the
captured value only if it differs from the last-saved value. `forceSave`
cancels any pending timer and, when enabled, saves unconditionally.
Outputs are the values passed to the save callback. -/

/-- Observable state of `useThrottledAutosave`. -/
structure AutosaveState (T : Type) where
  value : T
  lastSaved : T
  pending : Option T
  enabled : Bool

/-- Events: a change of the tracked value (a re-render), the pending
timer elapsing, and an explicit `forceSave()` call. -/
inductive AutosaveEvent (T : Type) where
  | change (v : T)
  | fire
  | force

/-- The first render: record the value as already saved, arm no timer,
invoke no callback. -/
def initAutosave {T : Type} (v0 : T) (enabled : Bool) : AutosaveState T × List T :=
  ({ value := v0, lastSaved := v0, pending := none, enabled := enabled }, [])

/-- One step of the hook. Returns the new state and the list of values
passed to the save callback during the step. -/
def autosaveStep {T : Type} [DecidableEq T] (st : AutosaveState T) :
    AutosaveEvent T → AutosaveState T × List T
  | .change v =>
      -- effect cleanup clears the previous timer; throttledSave arms a
      -- new one capturing the new value only when enabled
      if st.enabled then ({ st with value := v, pending := some v }, [])
      else ({ st with value := v, pending := none }, [])
  | .fire =>
      match st.pending with
      | some v =>
          if v ≠ st.lastSaved then
            ({ st with pending := none, lastSaved := v }, [v])
          else
            ({ st with pending := none }, [])
      | none => (st, [])
  | .force =>
      if st.enabled then
        ({ st with pending := none, lastSaved := st.value }, [st.value])
      else (st, [])

/-- C4: the first observed value is recorded as already saved and never
reaches the save callback; afterwards a firing timer (which always holds
the current value, since every change re-arms it) invokes the callback
with the current value exactly when it differs from the last-saved value
— in particular a value reverted to the last-saved one is skipped — and
a successful fire updates the last-saved record. -/
theorem autosave_first_and_fire {T : Type} [DecidableEq T] (v0 : T) (e : Bool)
    (st : AutosaveState T) (hp : st.pending = some st.value) :
    (initAutosave v0 e).2 = [] ∧
    (initAutosave v0 e).1.lastSaved = v0 ∧
    (initAutosave v0 e).1.pending = none ∧
    (autosaveStep st .fire).2 = (if st.value = st.lastSaved then [] else [st.value]) ∧
    (st.value ≠ st.lastSaved → (autosaveStep st .fire).1.lastSaved = st.value) ∧
    (st.value = st.lastSaved → (autosaveStep st .fire).1.lastSaved = st.lastSaved) := by
  refine ⟨rfl, rfl, rfl, ?_, ?_, ?_⟩
  · rw [autosaveStep, hp]
    by_cases hv : st.value = st.lastSaved
    · simp [hv]
    · simp [hv]
  · intro hv
    rw [autosaveStep, hp]
    simp [hv]
  · intro hv
    rw [autosaveStep, hp]
    simp [hv]

/-- Witness for C4: a timer armed with a changed value fires and saves;
a timer armed with the value reverted to the last-saved one is skipped. -/
theorem autosave_first_and_fire_witness :
    (autosaveStep { value := 2, lastSaved := 1, pending := some 2, enabled := true }
      AutosaveEvent.fire).2 = [2] ∧
    (autosaveStep ({ value := 2, lastSaved := 1, pending := some 2, enabled := true }
        : AutosaveState Nat) AutosaveEvent.fire).1.lastSaved = 2 ∧
    (autosaveStep { value := 1, lastSaved := 1, pending := some 1, enabled := true }
      AutosaveEvent.fire).2 = ([] : List Nat) := by
  have h1 := autosave_first_and_fire 0 true
    ({ value := 2, lastSaved := 1, pending := some 2, enabled := true } : AutosaveState Nat) rfl
  have h2 := autosave_first_and_fire 0 true
    ({ value := 1, lastSaved := 1, pending := some 1, enabled := true } : AutosaveState Nat) rfl
  refine ⟨?_, h1.2.2.2.2.1 (by decide), ?_⟩
  · rw [h1.2.2.2.1]
    decide
  · rw [h2.2.2.2.1]
    decide

/-- C5: when enabled, `forceSave()` cancels any pending timer, invokes
the save callback exactly once with the current value — with no equality
check, so also when it equals the last-saved value — and updates the
last-saved record; when disabled it is a no-op. -/
theorem autosave_force {T : Type} [DecidableEq T] (st : AutosaveState T) :
    (st.enabled = true →
      autosaveStep st .force =
        ({ st with pending := none, lastSaved := st.value }, [st.value])) ∧
    (st.enabled = false → autosaveStep st .force = (st, [])) := by
  constructor
  · intro he
    rw [autosaveStep, if_pos he]
  · intro he
    rw [autosaveStep, if_neg (by simp [he])]

/-- Witness for C5: enabled `forceSave` saves even an unchanged value and
clears the timer; disabled `forceSave` changes nothing. -/
theorem autosave_force_witness :
    autosaveStep ({ value := 7, lastSaved := 7, pending := some 7, enabled := true }
        : AutosaveState Nat) AutosaveEvent.force =
      ({ value := 7, lastSaved := 7, pending := none, enabled := true }, [7]) ∧
    autosaveStep ({ value := 9, lastSaved := 3, pending := some 9, enabled := false }
        : AutosaveState Nat) AutosaveEvent.force =
      ({ value := 9, lastSaved := 3, pending := some 9, enabled := false }, []) :=
  ⟨(autosave_force _).1 rfl, (autosave_force _).2 rfl⟩

/-! ## Remote Document Client (`src/lib/api.ts`)

The network is modelled as an oracle mapping a base URL and a request to
either a parsed JSON response (`Except.ok`) or a failure
(`Except.error`, covering both network exceptions and the non-2xx
responses that `apiRequest` converts into thrown errors). -/

/-- A document id: `string | number` in the source. -/
abbrev DocId := String ⊕ Nat

/-- Interpolate an id into a path, as in the template `/posts/${id}`. -/
def docIdStr : DocId → String
  | .inl s => s
  | .inr n => toString n

/-- The `PostData` payload shape of the source. -/
structure PostData where
  id : Option DocId
  title : String
  body : String
  userId : Nat
  tags : String
  createdAt : Option String
  updatedAt : Option String
  type : String
deriving Repr, DecidableEq

/-- A request: HTTP method, path relative to the base URL, and JSON body.
All requests carry the `application/json` content type. -/
structure ApiRequest where
  method : String
  path : String
  body : Option PostData
deriving Repr, DecidableEq

/-- A network oracle producing responses of type `V`. -/
abbrev Net (V : Type) := String → ApiRequest → Except String V

/-- `API_CONFIG.primary.baseUrl`. -/
def primaryBaseUrl : String := "https://api.oluwasetemi.dev"

/-- `API_CONFIG.fallback.baseUrl`. -/
def fallbackBaseUrl : String := "https://jsonplaceholder.typicode.com"

/-- `apiRequestWithFallback`: try the primary API first; on any failure
retry the identical request against the fallback; if both fail, fail
with the `All API endpoints are unavailable` error. Also returns the
trace of `(host, request)` pairs actually issued. -/
def apiRequestWithFallback {V : Type} (net : Net V) (req : ApiRequest) :
    Except String V × List (String × ApiRequest) :=
  match net primaryBaseUrl req with
  | .ok v => (.ok v, [(primaryBaseUrl, req)])
  | .error _ =>
      match net fallbackBaseUrl req with
      | .ok v => (.ok v, [(primaryBaseUrl, req), (fallbackBaseUrl, req)])
      | .error _ =>
          (.error "All API endpoints are unavailable",
           [(primaryBaseUrl, req), (fallbackBaseUrl, req)])

/-- The `APIResponse` shape of the source: `{success, data?, error?,
message}`. -/
structure APIResponse (α : Type) where
  success : Bool
  data : Option α
  error : Option String
  message : String
deriving Repr, DecidableEq

/-- A raw post record as returned by the remote JSON APIs; optional
fields model properties that may be absent. -/
structure RawPost where
  id : Option DocId
  title : String
  body : String
  tags : Option String
  createdAt : Option String
  type : Option String
deriving Repr, DecidableEq

/-- A list response may be a JSON array or a single object
(`Array.isArray(result) ? result : [result]`). -/
inductive ListResult where
  | single (p : RawPost)
  | arr (ps : List RawPost)
deriving Repr, DecidableEq

/-- `DocumentPreview` from the source. -/
structure DocumentPreview where
  id : Option DocId
  title : String
  preview : String
  createdAt : String
  type : String
deriving Repr, DecidableEq

/-- `DocumentData` from the source (the mapped load result). -/
structure DocumentData where
  id : Option DocId
  title : String
  content : String
  tags : String
  createdAt : String
  type : String
deriving Repr, DecidableEq

/-- JavaScript `x || d` on an optional string: the default replaces a
missing or empty (falsy) value. -/
def jsOr (x : Option String) (d : String) : String :=
  match x with
  | some v => if v = "" then d else v
  | none => d

/-- The payload built by `saveMarkdownToAPI`: an empty (falsy) title
becomes `Untitled Document`, falsy tags become the empty string; `now`
stands for `new Date().toISOString()`. -/
def savePayload (now title content tags : String) : PostData :=
  { id := none
    title := if title = "" then "Untitled Document" else title
    body := content
    userId := 1
    tags := tags
    createdAt := some now
    updatedAt := none
    type := "markdown" }

/-- The payload built by `updateMarkdownInAPI`. -/
def updatePayload (now : String) (documentId : DocId) (title content tags : String) :
    PostData :=
  { id := some documentId
    title := if title = "" then "Untitled Document" else title
    body := content
    userId := 1
    tags := tags
    createdAt := none
    updatedAt := some now
    type := "markdown" }

/-- The `POST /posts` request issued by `saveMarkdownToAPI`. -/
def saveRequest (now title content tags : String) : ApiRequest :=
  { method := "POST", path := "/posts", body := some (savePayload now title content tags) }

/-- The `GET /posts/{id}` request issued by `loadMarkdownFromAPI`. -/
def loadRequest (documentId : DocId) : ApiRequest :=
  { method := "GET", path := "/posts/" ++ docIdStr documentId, body := none }

/-- The `GET /posts?_limit={n}` request issued by `listMarkdownDocuments`. -/
def listRequest (limit : Nat) : ApiRequest :=
  { method := "GET", path := "/posts?_limit=" ++ toString limit, body := none }

/-- The `DELETE /posts/{id}` request issued by `deleteMarkdownFromAPI`. -/
def deleteRequest (documentId : DocId) : ApiRequest :=
  { method := "DELETE", path := "/posts/" ++ docIdStr documentId, body := none }

/-- The `PUT /posts/{id}` request issued by `updateMarkdownInAPI`. -/
def updateRequest (now : String) (documentId : DocId) (title content tags : String) :
    ApiRequest :=
  { method := "PUT", path := "/posts/" ++ docIdStr documentId,
    body := some (updatePayload now documentId title content tags) }

/-- `saveMarkdownToAPI`. -/
def saveMarkdownToAPI (net : Net RawPost) (now title content tags : String) :
    APIResponse RawPost × List (String × ApiRequest) :=
  match apiRequestWithFallback net (saveRequest now title content tags) with
  | (.ok result, tr) =>
      ({ success := true, data := some result, error := none,
         message := "Document saved successfully" }, tr)
  | (.error e, tr) =>
      ({ success := false, data := none, error := some e,
         message := "Failed to save document to API" }, tr)

/-- `loadMarkdownFromAPI`. -/
def loadMarkdownFromAPI (net : Net RawPost) (now : String) (documentId : DocId) :
    APIResponse DocumentData × List (String × ApiRequest) :=
  match apiRequestWithFallback net (loadRequest documentId) with
  | (.ok result, tr) =>
      ({ success := true
         data := some
           { id := result.id
             title := result.title
             content := result.body
             tags := jsOr result.tags ""
             createdAt := jsOr result.createdAt now
             type := jsOr result.type "markdown" }
         error := none
         message := "Document loaded successfully" }, tr)
  | (.error e, tr) =>
      ({ success := false, data := none, error := some e,
         message := "Failed to load document from API" }, tr)

/-- The preview mapping of `listMarkdownDocuments`:
`doc.body ? doc.body.substring(0, 100) + '...' : ''`. -/
def toDocumentPreview (now : String) (doc : RawPost) : DocumentPreview :=
  { id := doc.id
    title := doc.title
    preview := if doc.body = "" then "" else doc.body.take 100 ++ "..."
    createdAt := jsOr doc.createdAt now
    type := jsOr doc.type "markdown" }

/-- `Array.isArray(result) ? result : [result]`. -/
def normalizeListResult : ListResult → List RawPost
  | .arr ps => ps
  | .single p => [p]

/-- `listMarkdownDocuments`. -/
def listMarkdownDocuments (net : Net ListResult) (now : String) (limit : Nat) :
    APIResponse (List DocumentPreview) × List (String × ApiRequest) :=
  match apiRequestWithFallback net (listRequest limit) with
  | (.ok result, tr) =>
      ({ success := true
         data := some ((normalizeListResult result).map (toDocumentPreview now))
         error := none
         message := "Documents retrieved successfully" }, tr)
  | (.error e, tr) =>
      ({ success := false, data := none, error := some e,
         message := "Failed to retrieve documents from API" }, tr)

/-- `deleteMarkdownFromAPI` (the response body is discarded). -/
def deleteMarkdownFromAPI (net : Net Unit) (documentId : DocId) :
    APIResponse Unit × List (String × ApiRequest) :=
  match apiRequestWithFallback net (deleteRequest documentId) with
  | (.ok _, tr) =>
      ({ success := true, data := none, error := none,
         message := "Document deleted successfully" }, tr)
  | (.error e, tr) =>
      ({ success := false, data := none, error := some e,
         message := "Failed to delete document from API" }, tr)

/-- `updateMarkdownInAPI`. -/
def updateMarkdownInAPI (net : Net RawPost) (now : String) (documentId : DocId)
    (title content tags : String) :
    APIResponse RawPost × List (String × ApiRequest) :=
  match apiRequestWithFallback net (updateRequest now documentId title content tags) with
  | (.ok result, tr) =>
      ({ success := true, data := some result, error := none,
         message := "Document updated successfully" }, tr)
  | (.error e, tr) =>
      ({ success := false, data := none, error := some e,
         message := "Failed to update document in API" }, tr)

/-! ## C6: sequential fallback and total error handling -/

theorem fallback_trace {V : Type} (net : Net V) (req : ApiRequest) :
    (apiRequestWithFallback net req).2 =
      if (net primaryBaseUrl req).isOk then [(primaryBaseUrl, req)]
      else [(primaryBaseUrl, req), (fallbackBaseUrl, req)] := by
  cases hp : net primaryBaseUrl req <;> cases hf : net fallbackBaseUrl req <;>
    simp [apiRequestWithFallback, hp, hf, Except.isOk, Except.toBool]

theorem fallback_result_isOk {V : Type} (net : Net V) (req : ApiRequest) :
    (apiRequestWithFallback net req).1.isOk =
      ((net primaryBaseUrl req).isOk || (net fallbackBaseUrl req).isOk) := by
  cases hp : net primaryBaseUrl req <;> cases hf : net fallbackBaseUrl req <;>
    simp [apiRequestWithFallback, hp, hf, Except.isOk, Except.toBool]

theorem save_op_shape (netS : Net RawPost) (now title content tags : String) :
    (saveMarkdownToAPI netS now title content tags).1.success =
      (apiRequestWithFallback netS (saveRequest now title content tags)).1.isOk ∧
    (saveMarkdownToAPI netS now title content tags).2 =
      (apiRequestWithFallback netS (saveRequest now title content tags)).2 ∧
    (saveMarkdownToAPI netS now title content tags).1.message ≠ "" := by
  rcases h : apiRequestWithFallback netS (saveRequest now title content tags) with ⟨res, tr⟩
  cases res <;> simp [saveMarkdownToAPI, h, Except.isOk, Except.toBool]

theorem load_op_shape (netL : Net RawPost) (now : String) (documentId : DocId) :
    (loadMarkdownFromAPI netL now documentId).1.success =
      (apiRequestWithFallback netL (loadRequest documentId)).1.isOk ∧
    (loadMarkdownFromAPI netL now documentId).2 =
      (apiRequestWithFallback netL (loadRequest documentId)).2 ∧
    (loadMarkdownFromAPI netL now documentId).1.message ≠ "" := by
  rcases h : apiRequestWithFallback netL (loadRequest documentId) with ⟨res, tr⟩
  cases res <;> simp [loadMarkdownFromAPI, h, Except.isOk, Except.toBool]

theorem list_op_shape (netList : Net ListResult) (now : String) (limit : Nat) :
    (listMarkdownDocuments netList now limit).1.success =
      (apiRequestWithFallback netList (listRequest limit)).1.isOk ∧
    (listMarkdownDocuments netList now limit).2 =
      (apiRequestWithFallback netList (listRequest limit)).2 ∧
    (listMarkdownDocuments netList now limit).1.message ≠ "" := by
  rcases h : apiRequestWithFallback netList (listRequest limit) with ⟨res, tr⟩
  cases res <;> simp [listMarkdownDocuments, h, Except.isOk, Except.toBool]

theorem delete_op_shape (netD : Net Unit) (documentId : DocId) :
    (deleteMarkdownFromAPI netD documentId).1.success =
      (apiRequestWithFallback netD (deleteRequest documentId)).1.isOk ∧
    (deleteMarkdownFromAPI netD documentId).2 =
      (apiRequestWithFallback netD (deleteRequest documentId)).2 ∧
    (deleteMarkdownFromAPI netD documentId).1.message ≠ "" := by
  rcases h : apiRequestWithFallback netD (deleteRequest documentId) with ⟨res, tr⟩
  cases res <;> simp [deleteMarkdownFromAPI, h, Except.isOk, Except.toBool]

theorem update_op_shape (netU : Net RawPost) (now : String) (documentId : DocId)
    (title content tags : String) :
    (updateMarkdownInAPI netU now documentId title content tags).1.success =
      (apiRequestWithFallback netU (updateRequest now documentId title content tags)).1.isOk ∧
    (updateMarkdownInAPI netU now documentId title content tags).2 =
      (apiRequestWithFallback netU (updateRequest now documentId title content tags)).2 ∧
    (updateMarkdownInAPI netU now documentId title content tags).1.message ≠ "" := by
  rcases h : apiRequestWithFallback netU (updateRequest now documentId title content tags)
    with ⟨res, tr⟩
  cases res <;> simp [updateMarkdownInAPI, h, Except.isOk, Except.toBool]

/-- The trace an operation issues for request `r` under oracle `net`:
primary first, then the identical request to the fallback exactly when
the primary attempt failed. -/
def expectedTrace {V : Type} (net : Net V) (r : ApiRequest) :
    List (String × ApiRequest) :=
  if (net primaryBaseUrl r).isOk then [(primaryBaseUrl, r)]
  else [(primaryBaseUrl, r), (fallbackBaseUrl, r)]

/-- Both the primary and the fallback attempt for `r` fail under `net`. -/
def bothFail {V : Type} (net : Net V) (r : ApiRequest) : Prop :=
  (net primaryBaseUrl r).isOk = false ∧ (net fallbackBaseUrl r).isOk = false

theorem op_shape_to_spec {V α : Type} (net : Net V) (r : ApiRequest)
    (res : APIResponse α) (tr : List (String × ApiRequest))
    (hs : res.success = (apiRequestWithFallback net r).1.isOk)
    (ht : tr = (apiRequestWithFallback net r).2)
    (hm : res.message ≠ "") :
    tr = expectedTrace net r ∧
    (res.success = false ↔ bothFail net r) ∧
    (res.success = false → res.message ≠ "") := by
  refine ⟨by rw [ht, fallback_trace, expectedTrace], ?_, fun _ => hm⟩
  rw [hs, fallback_result_isOk, bothFail]
  cases (net primaryBaseUrl r).isOk <;> cases (net fallbackBaseUrl r).isOk <;> simp

/-- C6: every client operation issues its request against the primary
endpoint first; the fallback endpoint receives a request — identical in
method, path and body — exactly when the primary attempt failed; the
operation reports `success = false` with a non-empty message exactly
when both attempts failed; and every operation returns a plain
`APIResponse` value for every oracle, so nothing is thrown past the
client boundary. -/
theorem remote_ops_fallback (netS netL netU : Net RawPost) (netList : Net ListResult)
    (netD : Net Unit) (now title content tags : String) (documentId : DocId) (limit : Nat) :
    ((saveMarkdownToAPI netS now title content tags).2 =
        expectedTrace netS (saveRequest now title content tags) ∧
      ((saveMarkdownToAPI netS now title content tags).1.success = false ↔
        bothFail netS (saveRequest now title content tags)) ∧
      ((saveMarkdownToAPI netS now title content tags).1.success = false →
        (saveMarkdownToAPI netS now title content tags).1.message ≠ "")) ∧
    ((loadMarkdownFromAPI netL now documentId).2 =
        expectedTrace netL (loadRequest documentId) ∧
      ((loadMarkdownFromAPI netL now documentId).1.success = false ↔
        bothFail netL (loadRequest documentId)) ∧
      ((loadMarkdownFromAPI netL now documentId).1.success = false →
        (loadMarkdownFromAPI netL now documentId).1.message ≠ "")) ∧
    ((listMarkdownDocuments netList now limit).2 =
        expectedTrace netList (listRequest limit) ∧
      ((listMarkdownDocuments netList now limit).1.success = false ↔
        bothFail netList (listRequest limit)) ∧
      ((listMarkdownDocuments netList now limit).1.success = false →
        (listMarkdownDocuments netList now limit).1.message ≠ "")) ∧
    ((deleteMarkdownFromAPI netD documentId).2 =
        expectedTrace netD (deleteRequest documentId) ∧
      ((deleteMarkdownFromAPI netD documentId).1.success = false ↔
        bothFail netD (deleteRequest documentId)) ∧
      ((deleteMarkdownFromAPI netD documentId).1.success = false →
        (deleteMarkdownFromAPI netD documentId).1.message ≠ "")) ∧
    ((updateMarkdownInAPI netU now documentId title content tags).2 =
        expectedTrace netU (updateRequest now documentId title content tags) ∧
      ((updateMarkdownInAPI netU now documentId title content tags).1.success = false ↔
        bothFail netU (updateRequest now documentId title content tags)) ∧
      ((updateMarkdownInAPI netU now documentId title content tags).1.success = false →
        (updateMarkdownInAPI netU now documentId title content tags).1.message ≠ "")) := by
  obtain ⟨s1, s2, s3⟩ := save_op_shape netS now title content tags
  obtain ⟨l1, l2, l3⟩ := load_op_shape netL now documentId
  obtain ⟨t1, t2, t3⟩ := list_op_shape netList now limit
  obtain ⟨d1, d2, d3⟩ := delete_op_shape netD documentId
  obtain ⟨u1, u2, u3⟩ := update_op_shape netU now documentId title content tags
  exact ⟨op_shape_to_spec _ _ _ _ s1 s2 s3, op_shape_to_spec _ _ _ _ l1 l2 l3,
    op_shape_to_spec _ _ _ _ t1 t2 t3, op_shape_to_spec _ _ _ _ d1 d2 d3,
    op_shape_to_spec _ _ _ _ u1 u2 u3⟩

/-- An oracle whose primary endpoint always fails and whose fallback
always succeeds with an empty document list. -/
def listNetPrimaryDown : Net ListResult := fun host _ =>
  if host = primaryBaseUrl then Except.error "API Error: 500 Internal Server Error"
  else Except.ok (ListResult.arr [])

/-- An oracle on which every endpoint fails. -/
def listNetAllDown : Net ListResult := fun _ _ => Except.error "network down"

/-- Witness for C6: with the primary down, `list(5)` issues the identical
request to the fallback and succeeds; with both down it reports a failed
result with a non-empty message. -/
theorem remote_ops_fallback_witness :
    (listMarkdownDocuments listNetPrimaryDown "now" 5).2 =
      [(primaryBaseUrl, listRequest 5), (fallbackBaseUrl, listRequest 5)] ∧
    (listMarkdownDocuments listNetAllDown "now" 5).1.success = false ∧
    (listMarkdownDocuments listNetAllDown "now" 5).1.message ≠ "" := by
  have h1 := (remote_ops_fallback (fun _ _ => Except.error "x") (fun _ _ => Except.error "x")
    (fun _ _ => Except.error "x") listNetPrimaryDown (fun _ _ => Except.error "x")
    "now" "t" "c" "g" (Sum.inr 1) 5).2.2.1
  have h2 := (remote_ops_fallback (fun _ _ => Except.error "x") (fun _ _ => Except.error "x")
    (fun _ _ => Except.error "x") listNetAllDown (fun _ _ => Except.error "x")
    "now" "t" "c" "g" (Sum.inr 1) 5).2.2.1
  refine ⟨?_, ?_, ?_⟩
  · rw [h1.1, expectedTrace]
    norm_num [listNetPrimaryDown, Except.isOk, Except.toBool]
  · exact h2.2.1.mpr ⟨rfl, rfl⟩
  · exact h2.2.2 (h2.2.1.mpr ⟨rfl, rfl⟩)

/-! ## C7: list normalization and previews -/

/-- An oracle whose primary endpoint returns a single object (not an
array) whose `body` is the empty string. -/
def singleEmptyNet : Net ListResult := fun _ _ =>
  Except.ok (ListResult.single
    { id := some (Sum.inr 1), title := "t", body := "", tags := none,
      createdAt := some "2024-01-01", type := some "markdown" })

set_option maxRecDepth 10000 in
/-- Counterexample to C7 as stated: a returned document whose content is
empty is mapped to an empty preview, not to the first 100 characters of
its content with an ellipsis marker appended (which would be `...`). -/
theorem list_preview_counterexample :
    (listMarkdownDocuments singleEmptyNet "now" 5).1.data =
      some [{ id := some (Sum.inr 1), title := "t", preview := "",
              createdAt := "2024-01-01", type := "markdown" }] ∧
    ("" : String) ≠ ("" : String).take 100 ++ "..." := by
  constructor
  · rfl
  · decide

/-- C7 amended: `listMarkdownDocuments` normalizes a single-object
response into a one-element sequence and leaves a sequence as is, and
maps each returned document with non-empty content to a preview equal to
the first 100 characters of its content with an ellipsis marker
appended; a document with empty content gets an empty preview. -/
theorem list_normalize_and_preview (netList : Net ListResult) (now : String)
    (limit : Nat) (result : ListResult)
    (h : (apiRequestWithFallback netList (listRequest limit)).1 = Except.ok result) :
    (listMarkdownDocuments netList now limit).1.data =
      some ((normalizeListResult result).map (toDocumentPreview now)) ∧
    (∀ p, normalizeListResult (ListResult.single p) = [p]) ∧
    (∀ ps, normalizeListResult (ListResult.arr ps) = ps) ∧
    (∀ doc : RawPost, doc.body ≠ "" →
      (toDocumentPreview now doc).preview = doc.body.take 100 ++ "...") ∧
    (∀ doc : RawPost, doc.body = "" → (toDocumentPreview now doc).preview = "") := by
  rcases hx : apiRequestWithFallback netList (listRequest limit) with ⟨res, tr⟩
  rw [hx] at h
  simp only at h
  subst h
  refine ⟨by simp [listMarkdownDocuments, hx], fun p => rfl, fun ps => rfl, ?_, ?_⟩
  · intro doc hb
    simp [toDocumentPreview, hb]
  · intro doc hb
    simp [toDocumentPreview, hb]

/-- A concrete post with non-empty content. -/
def helloPost : RawPost :=
  { id := some (Sum.inr 2), title := "hello", body := "hello world", tags := none,
    createdAt := some "2024-01-01", type := none }

set_option maxRecDepth 10000 in
/-- Witness for the amended C7 at a concrete sequence response. -/
theorem list_normalize_and_preview_witness :
    (listMarkdownDocuments (fun _ _ => Except.ok (ListResult.arr [helloPost]))
        "now" 5).1.data = some [toDocumentPreview "now" helloPost] ∧
    (toDocumentPreview "now" helloPost).preview = "hello world".take 100 ++ "..." := by
  have h := list_normalize_and_preview (fun _ _ => Except.ok (ListResult.arr [helloPost]))
    "now" 5 (ListResult.arr [helloPost]) rfl
  exact ⟨h.1, h.2.2.2.1 helloPost (by decide)⟩

/-! ## C10: default title and tags in save/update payloads -/

/-- C10: with an empty title argument, the payload sent by
`saveMarkdownToAPI` and `updateMarkdownInAPI` carries the title
`Untitled Document` (and empty tags stay the empty string); every request
these operations issue — to the primary or the fallback host — carries
exactly that payload. -/
theorem untitled_title_default (netS netU : Net RawPost) (now content tags : String)
    (documentId : DocId) :
    (savePayload now "" content tags).title = "Untitled Document" ∧
    (savePayload now "" content "").tags = "" ∧
    (updatePayload now documentId "" content tags).title = "Untitled Document" ∧
    (updatePayload now documentId "" content "").tags = "" ∧
    (∀ r ∈ (saveMarkdownToAPI netS now "" content tags).2,
      r.2.body = some (savePayload now "" content tags)) ∧
    (∀ r ∈ (updateMarkdownInAPI netU now documentId "" content tags).2,
      r.2.body = some (updatePayload now documentId "" content tags)) := by
  refine ⟨rfl, rfl, rfl, rfl, ?_, ?_⟩
  · intro r hr
    rw [(save_op_shape netS now "" content tags).2.1, fallback_trace] at hr
    split at hr <;> simp only [List.mem_singleton, List.mem_cons,
      List.not_mem_nil, or_false] at hr
    · subst hr
      rfl
    · rcases hr with rfl | rfl <;> rfl
  · intro r hr
    rw [(update_op_shape netU now documentId "" content tags).2.1, fallback_trace] at hr
    split at hr <;> simp only [List.mem_singleton, List.mem_cons,
      List.not_mem_nil, or_false] at hr
    · subst hr
      rfl
    · rcases hr with rfl | rfl <;> rfl

/-- An oracle on which every post endpoint fails. -/
def rawNetDown : Net RawPost := fun _ _ => Except.error "down"

/-- Witness for C10: the concrete save payload of an empty title, and a
concrete issued request carrying it. -/
theorem untitled_title_default_witness :
    (savePayload "2024" "" "# Hi" "").title = "Untitled Document" ∧
    (savePayload "2024" "" "# Hi" "").tags = "" ∧
    (updatePayload "2024" (Sum.inr 1) "" "# Hi" "").title = "Untitled Document" ∧
    (primaryBaseUrl, saveRequest "2024" "" "# Hi" "") ∈
      (saveMarkdownToAPI rawNetDown "2024" "" "# Hi" "").2 ∧
    (primaryBaseUrl, saveRequest "2024" "" "# Hi" "").2.body =
      some (savePayload "2024" "" "# Hi" "") := by
  have h := untitled_title_default rawNetDown rawNetDown "2024" "# Hi" "" (Sum.inr 1)
  have hmem : (primaryBaseUrl, saveRequest "2024" "" "# Hi" "") ∈
      (saveMarkdownToAPI rawNetDown "2024" "" "# Hi" "").2 := by
    rw [(save_op_shape rawNetDown "2024" "" "# Hi" "").2.1, fallback_trace]
    simp [rawNetDown, Except.isOk, Except.toBool]
  exact ⟨h.1, h.2.1, h.2.2.1, hmem, h.2.2.2.2.1 _ hmem⟩

/-! ## C8: `useLocalStorage`

Serialization (`JSON.stringify`) and deserialization (`JSON.parse`) are
modelled as fallible functions; `Except.error` models a thrown
exception. The durable store is a map from keys to stored strings;
`window = false` models `typeof window === 'undefined'`, and
`setItemOk = false` models `localStorage.setItem` throwing (e.g. quota
exceeded). -/

/-- The argument of the persisted setter: a literal value or a pure
updater function of the previous value (the `useState` API). -/
inductive SetValueArg (T : Type) where
  | literal (v : T)
  | updater (f : T → T)

/-- `value instanceof Function ? value(storedValue) : value`. -/
def resolveValue {T : Type} (arg : SetValueArg T) (prev : T) : T :=
  match arg with
  | .literal v => v
  | .updater f => f prev

/-- The lazy initializer of `useLocalStorage`: read the stored item;
a missing or empty (falsy) item yields the initial value, and a
deserialization exception is caught, logged and replaced by the initial
value. -/
def localStorageRead {T : Type} (deser : String → Except String T) (window : Bool)
    (store : String → Option String) (key : String) (initialValue : T) : T :=
  if window then
    match store key with
    | none => initialValue
    | some item =>
        if item = "" then initialValue
        else
          match deser item with
          | .ok v => v
          | .error _ => initialValue
  else initialValue

/-- `setValue` of `useLocalStorage`: resolve the new value, update the
in-memory state (`setStoredValue` runs first), then serialize and
persist; a serialization or storage exception is caught, logged and
swallowed, leaving the durable store unchanged while the in-memory value
has already been updated. Returns the new in-memory value and the new
durable store. -/
def localStorageWrite {T : Type} (ser : T → Except String String)
    (window setItemOk : Bool) (store : String → Option String) (key : String)
    (arg : SetValueArg T) (prev : T) : T × (String → Option String) :=
  let valueToStore := resolveValue arg prev
  if window then
    match ser valueToStore with
    | .ok s =>
        if setItemOk then (valueToStore, fun k => if k = key then some s else store k)
        else (valueToStore, store)
    | .error _ => (valueToStore, store)
  else (valueToStore, store)

/-- C8: the store never throws: a read that misses (or whose stored item
fails to deserialize) returns the provided default; a write whose
serialization or durable-storage step fails still updates the in-memory
value to the new value while leaving the durable store unchanged. -/
theorem localStorage_never_throws {T : Type} (deser : String → Except String T)
    (ser : T → Except String String) (window setItemOk : Bool)
    (store : String → Option String) (key : String) (initialValue prev : T)
    (arg : SetValueArg T) :
    (store key = none → localStorageRead deser true store key initialValue = initialValue) ∧
    (∀ item e, store key = some item → deser item = Except.error e →
      localStorageRead deser true store key initialValue = initialValue) ∧
    (∀ e, ser (resolveValue arg prev) = Except.error e →
      localStorageWrite ser window setItemOk store key arg prev =
        (resolveValue arg prev, store)) ∧
    (setItemOk = false →
      localStorageWrite ser window setItemOk store key arg prev =
        (resolveValue arg prev, store)) := by
  refine ⟨?_, ?_, ?_, ?_⟩
  · intro h
    simp [localStorageRead, h]
  · intro item e h1 h2
    by_cases hi : item = ""
    · simp [localStorageRead, h1, hi]
    · simp [localStorageRead, h1, hi, h2]
  · intro e h
    cases window <;> simp [localStorageWrite, h]
  · intro h
    subst h
    cases window <;>
      cases hs : ser (resolveValue arg prev) <;> simp [localStorageWrite, hs]

/-- Witness for C8: a store holding an undeserializable item returns the
default on read; a write whose serialization fails still updates the
in-memory value and leaves the store unchanged. -/
theorem localStorage_never_throws_witness :
    localStorageRead (fun _ => Except.error "bad json") true
      (fun _ => some "garbage") "markdown" 42 = 42 ∧
    localStorageWrite (fun _ => Except.error "cyclic") true true
      (fun _ => some "garbage") "markdown" (SetValueArg.literal 7) 42 =
      (7, fun _ => some "garbage") := by
  have h := localStorage_never_throws (fun _ => Except.error "bad json")
    (fun _ => Except.error "cyclic") true true (fun _ => some "garbage")
    "markdown" 42 42 (SetValueArg.literal 7)
  exact ⟨h.2.1 "garbage" "bad json" rfl rfl, h.2.2.1 "cyclic" rfl⟩

/-! ## C9: `useCloudSync`

Each operation of the hook awaits one client call, modelled as an
`Except`: `Except.ok` is the settled `APIResponse` (the client functions
themselves never throw) and `Except.error` a thrown exception reaching
the `catch` branch. Each operation sets `isLoading` true on entry and
false in its `finally`; the resulting net transition on the hook state is
modelled as one step. -/

/-- The state bag of `useCloudSync`: `isLoading`, `error`,
`cloudDocuments` (the known remote documents) and `lastSyncTime`. -/
structure SyncState where
  isLoading : Bool
  error : Option String
  cloudDocuments : List DocumentPreview
  lastSyncTime : Option String
deriving Repr, DecidableEq

/-- JavaScript `x || d` on two strings. -/
def strOr (x d : String) : String := if x = "" then d else x

theorem strOr_ne_empty (x d : String) (hd : d ≠ "") : strOr x d ≠ "" := by
  rw [strOr]
  split
  · exact hd
  · assumption

/-- `saveToCloud`. -/
def saveToCloudOp (call : Except String (APIResponse RawPost)) (now : String)
    (st : SyncState) : SyncState × APIResponse RawPost :=
  match call with
  | .ok result =>
      if result.success then
        ({ st with
            isLoading := false
            error := none
            lastSyncTime := some now }, result)
      else
        ({ st with
            isLoading := false
            error := some (strOr result.message "Failed to save to cloud") }, result)
  | .error _ =>
      ({ st with
          isLoading := false
          error := some "Network error: Unable to save to cloud" },
       { success := false, data := none, error := none,
         message := "Network error: Unable to save to cloud" })

/-- `loadFromCloud`. -/
def loadFromCloudOp (call : Except String (APIResponse DocumentData)) (now : String)
    (st : SyncState) : SyncState × APIResponse DocumentData :=
  match call with
  | .ok result =>
      if result.success then
        ({ st with
            isLoading := false
            error := none
            lastSyncTime := some now }, result)
      else
        ({ st with
            isLoading := false
            error := some (strOr result.message "Failed to load from cloud") }, result)
  | .error _ =>
      ({ st with
          isLoading := false
          error := some "Network error: Unable to load from cloud" },
       { success := false, data := none, error := none,
         message := "Network error: Unable to load from cloud" })

/-- `listCloudDocuments`: on success the document list replaces
`cloudDocuments` wholesale (the client always accompanies a successful
list result with its data, so the default is never taken). -/
def listCloudDocumentsOp (call : Except String (APIResponse (List DocumentPreview)))
    (now : String) (st : SyncState) :
    SyncState × APIResponse (List DocumentPreview) :=
  match call with
  | .ok result =>
      if result.success then
        ({ st with
            isLoading := false
            error := none
            cloudDocuments := result.data.getD []
            lastSyncTime := some now }, result)
      else
        ({ st with
            isLoading := false
            error := some (strOr result.message "Failed to list cloud documents") }, result)
  | .error _ =>
      ({ st with
          isLoading := false
          error := some "Network error: Unable to fetch cloud documents" },
       { success := false, data := none, error := none,
         message := "Network error: Unable to fetch cloud documents" })

/-- `deleteFromCloud`: on success the matching entry is removed from
`cloudDocuments` by identity comparison. -/
def deleteFromCloudOp (call : Except String (APIResponse Unit)) (documentId : DocId)
    (now : String) (st : SyncState) : SyncState × APIResponse Unit :=
  match call with
  | .ok result =>
      if result.success then
        ({ st with
            isLoading := false
            error := none
            cloudDocuments := st.cloudDocuments.filter
              (fun doc => decide (doc.id ≠ some documentId))
            lastSyncTime := some now }, result)
      else
        ({ st with
            isLoading := false
            error := some (strOr result.message "Failed to delete from cloud") }, result)
  | .error _ =>
      ({ st with
          isLoading := false
          error := some "Network error: Unable to delete from cloud" },
       { success := false, data := none, error := none,
         message := "Network error: Unable to delete from cloud" })

/-- `updateInCloud`. -/
def updateInCloudOp (call : Except String (APIResponse RawPost)) (now : String)
    (st : SyncState) : SyncState × APIResponse RawPost :=
  match call with
  | .ok result =>
      if result.success then
        ({ st with
            isLoading := false
            error := none
            lastSyncTime := some now }, result)
      else
        ({ st with
            isLoading := false
            error := some (strOr result.message "Failed to update cloud document") }, result)
  | .error _ =>
      ({ st with
          isLoading := false
          error := some "Network error: Unable to update cloud document" },
       { success := false, data := none, error := none,
         message := "Network error: Unable to update cloud document" })

/-- The awaited client call failed: either the settled result has
`success = false`, or an exception was caught. -/
def failedCall {α : Type} (call : Except String (APIResponse α)) : Prop :=
  match call with
  | .ok r => r.success = false
  | .error _ => True

/-- C9: every orchestrator operation that fails sets `error` to a
non-empty human-readable message and leaves every other field of the
state — in particular `cloudDocuments` and `lastSyncTime` — unchanged
(from a quiescent state, `isLoading` is false before and after). -/
theorem sync_failure_frame (st : SyncState) (hL : st.isLoading = false) (now : String)
    (callS : Except String (APIResponse RawPost))
    (callL : Except String (APIResponse DocumentData))
    (callList : Except String (APIResponse (List DocumentPreview)))
    (callD : Except String (APIResponse Unit))
    (callU : Except String (APIResponse RawPost)) (documentId : DocId) :
    (failedCall callS → ∃ m, m ≠ "" ∧
      (saveToCloudOp callS now st).1 = { st with error := some m }) ∧
    (failedCall callL → ∃ m, m ≠ "" ∧
      (loadFromCloudOp callL now st).1 = { st with error := some m }) ∧
    (failedCall callList → ∃ m, m ≠ "" ∧
      (listCloudDocumentsOp callList now st).1 = { st with error := some m }) ∧
    (failedCall callD → ∃ m, m ≠ "" ∧
      (deleteFromCloudOp callD documentId now st).1 = { st with error := some m }) ∧
    (failedCall callU → ∃ m, m ≠ "" ∧
      (updateInCloudOp callU now st).1 = { st with error := some m }) := by
  obtain ⟨iL, er, cd, ls⟩ := st
  simp only at hL
  subst hL
  refine ⟨?_, ?_, ?_, ?_, ?_⟩
  · cases callS with
    | ok r =>
        intro hf
        simp only [failedCall] at hf
        exact ⟨strOr r.message "Failed to save to cloud",
          strOr_ne_empty _ _ (by decide), by simp [saveToCloudOp, hf]⟩
    | error e =>
        intro _
        exact ⟨"Network error: Unable to save to cloud", by decide,
          by simp [saveToCloudOp]⟩
  · cases callL with
    | ok r =>
        intro hf
        simp only [failedCall] at hf
        exact ⟨strOr r.message "Failed to load from cloud",
          strOr_ne_empty _ _ (by decide), by simp [loadFromCloudOp, hf]⟩
    | error e =>
        intro _
        exact ⟨"Network error: Unable to load from cloud", by decide,
          by simp [loadFromCloudOp]⟩
  · cases callList with
    | ok r =>
        intro hf
        simp only [failedCall] at hf
        exact ⟨strOr r.message "Failed to list cloud documents",
          strOr_ne_empty _ _ (by decide), by simp [listCloudDocumentsOp, hf]⟩
    | error e =>
        intro _
        exact ⟨"Network error: Unable to fetch cloud documents", by decide,
          by simp [listCloudDocumentsOp]⟩
  · cases callD with
    | ok r =>
        intro hf
        simp only [failedCall] at hf
        exact ⟨strOr r.message "Failed to delete from cloud",
          strOr_ne_empty _ _ (by decide), by simp [deleteFromCloudOp, hf]⟩
    | error e =>
        intro _
        exact ⟨"Network error: Unable to delete from cloud", by decide,
          by simp [deleteFromCloudOp]⟩
  · cases callU with
    | ok r =>
        intro hf
        simp only [failedCall] at hf
        exact ⟨strOr r.message "Failed to update cloud document",
          strOr_ne_empty _ _ (by decide), by simp [updateInCloudOp, hf]⟩
    | error e =>
        intro _
        exact ⟨"Network error: Unable to update cloud document", by decide,
          by simp [updateInCloudOp]⟩

/-- Witness for C9: a failed list result leaves the quiescent state
unchanged except for the non-empty error message. -/
theorem sync_failure_frame_witness :
    ∃ m, m ≠ "" ∧
      (listCloudDocumentsOp
        (Except.ok { success := false, data := none, error := none, message := "boom" })
        "now"
        { isLoading := false, error := none, cloudDocuments := [],
          lastSyncTime := none }).1 =
      { isLoading := false, error := some m, cloudDocuments := [],
        lastSyncTime := none } := by
  have h := sync_failure_frame
    { isLoading := false, error := none, cloudDocuments := [], lastSyncTime := none }
    rfl "now" (Except.error "e") (Except.error "e")
    (Except.ok { success := false, data := none, error := none, message := "boom" })
    (Except.error "e") (Except.error "e") (Sum.inr 1)
  exact h.2.2.1 rfl

end MdPreview
